import Mathlib

/-!
Verification of the remote-asset resolution / caching layer and the
range-forwarding proxy of the SoqotraRockArt application (`app.py`,
`config.py`).  Python functions are shallowly embedded as pure Lean
functions; the in-memory link cache becomes an explicit association list
threaded through each operation, wall-clock time becomes an explicit `Nat`
parameter, and the outcome of each outbound HTTP/RPC call becomes an
explicit parameter of the embedded function.  The number of outbound
remote calls an operation performs is returned alongside its result.
-/

set_option autoImplicit false

namespace SoqotraRockArt

/-! ## String helpers

`image_path.replace('\\', '/')`, `.lower()`, `'thumbnails' in s`, and
`normalized_path.split('/')[-1]` from `app.py` are embedded as
character-list computations so that every definition evaluates inside the
kernel. -/

/-- Embeds Python `s.replace('\\', '/')` (single-character pattern). -/
def normalizeSeparators (s : String) : String :=
  String.mk (s.data.map fun c => if c = '\\' then '/' else c)

/-- Embeds Python `s.lower()`. -/
def lowerStr (s : String) : String :=
  String.mk (s.data.map Char.toLower)

/-- Embeds the Python membership test `pat in s` on strings. -/
def containsSub (s pat : String) : Bool :=
  decide (pat.data <:+: s.data)

/-- Embeds Python `s.split(sep)` for a single-character separator:
the resulting list of fragments, always nonempty. -/
def splitChars (sep : Char) : List Char → List (List Char)
  | [] => [[]]
  | c :: cs =>
    match splitChars sep cs with
    | [] => [[]]
    | g :: gs => if c = sep then [] :: g :: gs else (c :: g) :: gs

/-- Embeds Python `s.split(sep)[-1]`. -/
def lastPart (sep : Char) (l : List Char) : List Char :=
  (splitChars sep l).getLastD []

/-! ## Link Resolver & Cache (`app.py` lines 54-154)

`_dropbox_link_cache` is a dict from Dropbox path to
`{'url': ..., 'expires': datetime}`; embedded as an association list of
`CacheEntry`.  `datetime.now()` becomes the explicit `now : Nat`. -/

/-- One value of `_dropbox_link_cache`: a temporary URL and its absolute
expiry time. -/
structure CacheEntry where
  url : String
  expires : Nat
  deriving Repr, DecidableEq

/-- An entry serves a request iff `cached['expires'] > datetime.now()`,
that is, iff `now < expires`. -/
def CacheEntry.valid (e : CacheEntry) (now : Nat) : Bool :=
  decide (now < e.expires)

/-- The `_dropbox_link_cache` dict, embedded as an association list. -/
abbrev Cache := List (String × CacheEntry)

/-- Dict lookup `_dropbox_link_cache[key]` (first matching key). -/
def Cache.lookup : Cache → String → Option CacheEntry
  | [], _ => none
  | (k, v) :: rest, key => if k = key then some v else Cache.lookup rest key

/-- Dict deletion `del _dropbox_link_cache[key]`. -/
def Cache.erase (c : Cache) (key : String) : Cache :=
  c.filter fun kv => kv.1 != key

/-- Dict assignment `_dropbox_link_cache[key] = e` (overwrites any previous
binding for `key`). -/
def Cache.insert (c : Cache) (key : String) (e : CacheEntry) : Cache :=
  (key, e) :: Cache.erase c key

/-- The outcome of one outbound `files_get_temporary_link` call: either the
link, or any raised exception (network, auth, not-found, timeout), which
`get_dropbox_temporary_link` catches wholesale. -/
inductive RemoteResult where
  | success (url : String)
  | failure
  deriving Repr, DecidableEq

/-- The configuration surface of `config.py` that the resolver reads:
`USE_DROPBOX`, `DROPBOX_ORIGINAL_FOLDER`, `DROPBOX_THUMBNAIL_FOLDER`,
`DROPBOX_LINK_CACHE_TIMEOUT`.  `config.py` always defines all of them. -/
structure AppConfig where
  useDropbox : Bool
  dropboxOriginalFolder : String
  dropboxThumbnailFolder : String
  dropboxLinkCacheTimeout : Nat
  deriving Repr, DecidableEq

/-- Result of a resolver operation: the returned value (`None` embeds as
`none`), the cache afterwards, and how many outbound remote calls were
performed. -/
structure ResolveOutcome where
  result : Option String
  cache : Cache
  calls : Nat
  deriving Repr, DecidableEq

/-- The miss path of `get_dropbox_temporary_link` (lines 80-101): perform
the outbound call; on success store `{url, expires = now + timeout}` and
return the URL; on any exception return `None` without touching the
cache. -/
def fetchRemoteLink (cfg : AppConfig) (remote : RemoteResult) (now : Nat)
    (cache : Cache) (path : String) : ResolveOutcome :=
  match remote with
  | .success url =>
      ⟨some url, Cache.insert cache path ⟨url, now + cfg.dropboxLinkCacheTimeout⟩, 1⟩
  | .failure => ⟨none, cache, 1⟩

/-- Embeds `get_dropbox_temporary_link` (lines 60-101): serve from
the cache while the entry is unexpired; delete an expired entry and fall
through to the outbound call. -/
def get_dropbox_temporary_link (cfg : AppConfig) (remote : RemoteResult)
    (now : Nat) (cache : Cache) (path : String) : ResolveOutcome :=
  match Cache.lookup cache path with
  | some cached =>
      if cached.valid now then ⟨some cached.url, cache, 0⟩
      else fetchRemoteLink cfg remote now (Cache.erase cache path) path
  | none => fetchRemoteLink cfg remote now cache path

/-- Embeds `url_for` on the static endpoint: the local static URL for `p`. -/
def staticUrl (p : String) : String := "/static/" ++ p

/-- Lines 128-140 of `get_image_url`: normalize separators, take the last
`/`-separated component, pick the thumbnail folder iff the lowercased
normalized path contains `'thumbnails'`, and join folder and filename with
`/`. -/
def dropboxPathOf (cfg : AppConfig) (p : String) : String :=
  let normalized := normalizeSeparators p
  let filename := String.mk (lastPart '/' normalized.data)
  let folder :=
    if containsSub (lowerStr normalized) "thumbnails" then cfg.dropboxThumbnailFolder
    else cfg.dropboxOriginalFolder
  folder ++ "/" ++ filename

/-- Embeds `get_image_url` (lines 104-154).  `image_path` may be
`None` or a string; Python's `if not image_path` treats `None` and `""`
alike.  The final `if temp_url:` is Python truthiness, so an empty string
URL also falls back to the local static URL. -/
def get_image_url (cfg : AppConfig) (remote : RemoteResult) (now : Nat)
    (cache : Cache) (imagePath : Option String) : ResolveOutcome :=
  match imagePath with
  | none => ⟨none, cache, 0⟩
  | some p =>
    if p = "" then ⟨none, cache, 0⟩
    else if !cfg.useDropbox then ⟨some (staticUrl (normalizeSeparators p)), cache, 0⟩
    else
      let o := get_dropbox_temporary_link cfg remote now cache (dropboxPathOf cfg p)
      match o.result with
      | some u =>
          if u = "" then ⟨some (staticUrl (normalizeSeparators p)), o.cache, o.calls⟩
          else ⟨some u, o.cache, o.calls⟩
      | none => ⟨some (staticUrl (normalizeSeparators p)), o.cache, o.calls⟩

/-! ## Range-Forwarding Proxy (`app.py` lines 1206-1290)

The outbound `requests.get(cog_url, headers, stream=True, timeout=30)`
either yields a response object or raises one of three exception classes;
both are embedded in `FetchOutcome`.  The Flask response is embedded as
`HttpReply` with an ordered header list and a symbolic body. -/

/-- The parts of a `requests` response that `cog_proxy` reads: status,
selected headers, the error body text, and the streamed content chunks
(`iter_content(chunk_size=8192)`), each chunk a list of bytes. -/
structure UpstreamResponse where
  status : Nat
  contentType : Option String
  contentRange : Option String
  contentLength : Option String
  acceptRanges : Option String
  text : String
  chunks : List (List Nat)
  deriving Repr, DecidableEq

/-- Outcome of the outbound fetch: a response, or one of the three caught
exception classes (`requests.exceptions.Timeout`,
`requests.exceptions.RequestException`, any other `Exception`). -/
inductive FetchOutcome where
  | ok (resp : UpstreamResponse)
  | timedOut
  | requestError (msg : String)
  | otherError (msg : String)
  deriving Repr, DecidableEq

/-- Body of a reply produced by the proxy layer: nothing, a JSON error
object `{'error': ..., 'details'?: ...}`, a JSON `{'url': ...}` object, or
a streamed sequence of byte chunks. -/
inductive Body where
  | empty
  | jsonErr (error : String) (details : Option String)
  | jsonUrl (url : String)
  | stream (chunks : List (List Nat))
  deriving Repr, DecidableEq

/-- A Flask response as the proxy layer builds it. -/
structure HttpReply where
  status : Nat
  contentType : Option String
  headers : List (String × String)
  body : Body
  deriving Repr, DecidableEq

/-- First-match lookup in an ordered header list. -/
def headerLookup : List (String × String) → String → Option String
  | [], _ => none
  | (k, v) :: rest, key => if k = key then some v else headerLookup rest key

/-- The four CORS headers `cog_proxy` attaches to every streamed reply
(lines 1254-1257). -/
def corsHeaders : List (String × String) :=
  [("Access-Control-Allow-Origin", "*"),
   ("Access-Control-Allow-Methods", "GET, OPTIONS"),
   ("Access-Control-Allow-Headers", "Range"),
   ("Access-Control-Expose-Headers", "Content-Range, Content-Length, Accept-Ranges")]

/-- An optional copied-through header (lines 1260-1265). -/
def optHeader (name : String) (v : Option String) : List (String × String) :=
  match v with
  | some s => [(name, s)]
  | none => []

/-- Python `text[:200]`. -/
def truncate200 (s : String) : String := String.mk (s.data.take 200)

/-- Line 1234: `response.text[:200] if response.text else "No error details"`. -/
def errorExcerpt (text : String) : String :=
  if text = "" then "No error details" else truncate200 text

/-- The 503 reply of line 1215, sent when `DROPBOX_COG_URL` is unset. -/
def notConfiguredReply : HttpReply :=
  ⟨503, none, [],
   .jsonErr "COG URL not configured. Please set DROPBOX_COG_URL environment variable." none⟩

/-- Embeds `cog_proxy` (lines 1206-1279).  `cogUrl` is the environment value `DROPBOX_COG_URL`
(Python `if not cog_url` treats `None` and `""` alike); `rangeHeader` the
inbound `Range` header; `fetch` maps the forwarded range header to the
outcome of the outbound call. -/
def cog_proxy (cogUrl : Option String) (rangeHeader : Option String)
    (fetch : Option String → FetchOutcome) : HttpReply :=
  match cogUrl with
  | none => notConfiguredReply
  | some u =>
    if u = "" then notConfiguredReply
    else
      match fetch rangeHeader with
      | .ok resp =>
        if 400 ≤ resp.status then
          ⟨503, none, [],
           .jsonErr ("Dropbox returned " ++ toString resp.status)
             (some (errorExcerpt resp.text))⟩
        else
          ⟨resp.status, some (resp.contentType.getD "image/tiff"),
           corsHeaders ++ optHeader "Content-Range" resp.contentRange
             ++ optHeader "Content-Length" resp.contentLength
             ++ optHeader "Accept-Ranges" resp.acceptRanges,
           .stream (resp.chunks.filter fun ch => !ch.isEmpty)⟩
      | .timedOut => ⟨503, none, [], .jsonErr "Request to Dropbox timed out" none⟩
      | .requestError e =>
          ⟨503, none, [], .jsonErr ("Failed to fetch from Dropbox: " ++ e) none⟩
      | .otherError e => ⟨500, none, [], .jsonErr e none⟩

/-- Embeds `cog_proxy_options` (lines 1282-1290): a fresh response (status
200, empty body) carrying exactly three CORS headers. -/
def cog_proxy_options : HttpReply :=
  ⟨200, none,
   [("Access-Control-Allow-Origin", "*"),
    ("Access-Control-Allow-Methods", "GET, OPTIONS"),
    ("Access-Control-Allow-Headers", "Range")],
   .empty⟩

/-! ## Companion COG-URL endpoint (`app.py` lines 1147-1166) -/

/-- The fixed raster path of line 1157. -/
def cogDropboxPath : String := "/tiles/orthophoto_shp042_cog.tif"

/-- Result of `get_cog_url`: HTTP status, JSON body, resulting cache, and
number of outbound remote-link calls. -/
structure CogOutcome where
  status : Nat
  body : Body
  cache : Cache
  calls : Nat
  deriving Repr, DecidableEq

/-- Embeds `get_cog_url` (lines 1147-1166).  `cogUrlEnv` is
`os.getenv('DROPBOX_COG_URL')`; `useDropboxEnv` the condition
`os.getenv('USE_DROPBOX') == 'true'`.  When no explicit URL is configured
and remote mode is on, the fallback goes through
`get_dropbox_temporary_link` on the fixed raster path; `if temp_link:` is
Python truthiness, so an empty-string link also falls to the error. -/
def get_cog_url (cogUrlEnv : Option String) (useDropboxEnv : Bool)
    (cfg : AppConfig) (remote : RemoteResult) (now : Nat) (cache : Cache) :
    CogOutcome :=
  let fallback : CogOutcome :=
    if useDropboxEnv then
      let o := get_dropbox_temporary_link cfg remote now cache cogDropboxPath
      match o.result with
      | some u =>
          if u = "" then ⟨500, .jsonErr "COG URL not configured" none, o.cache, o.calls⟩
          else ⟨200, .jsonUrl u, o.cache, o.calls⟩
      | none => ⟨500, .jsonErr "COG URL not configured" none, o.cache, o.calls⟩
    else ⟨500, .jsonErr "COG URL not configured" none, cache, 0⟩
  match cogUrlEnv with
  | none => fallback
  | some u => if u = "" then fallback else ⟨200, .jsonUrl u, cache, 0⟩

example :
    (cog_proxy (some "u") none fun _ => .otherError "boom").status = 500 := by decide

example :
    (cog_proxy (some "u") none fun _ =>
        .ok ⟨404, none, none, none, none, "Not Found", []⟩).body
      = .jsonErr "Dropbox returned 404" (some "Not Found") := by decide

example :
    get_cog_url none true ⟨true, "/o", "/t", 10⟩ (.success "u") 0 []
      = ⟨200, .jsonUrl "u", [(cogDropboxPath, ⟨"u", 10⟩)], 1⟩ := by decide

/-! ## Cache lemmas -/

theorem Cache.lookup_erase_self (c : Cache) (k : String) :
    Cache.lookup (Cache.erase c k) k = none := by
  induction c with
  | nil => rfl
  | cons kv rest ih =>
    obtain ⟨k', v⟩ := kv
    by_cases hk : k' = k
    · subst hk
      simpa [Cache.erase, List.filter_cons] using ih
    · simpa [Cache.erase, List.filter_cons, hk, Cache.lookup] using ih

theorem Cache.lookup_insert_self (c : Cache) (k : String) (e : CacheEntry) :
    Cache.lookup (Cache.insert c k e) k = some e := by
  simp [Cache.insert, Cache.lookup]

theorem fetchRemoteLink_calls (cfg : AppConfig) (r : RemoteResult) (now : Nat)
    (c : Cache) (p : String) : (fetchRemoteLink cfg r now c p).calls = 1 := by
  cases r <;> rfl

/-- The cache left behind by a successful outbound fetch holds the fresh
entry under its key. -/
theorem lookup_of_fetch_success (cfg : AppConfig) (c' c1 : Cache) (k u : String)
    (t0 : Nat)
    (h : fetchRemoteLink cfg (.success u) t0 c' k = ⟨some u, c1, 1⟩) :
    Cache.lookup c1 k = some ⟨u, t0 + cfg.dropboxLinkCacheTimeout⟩ := by
  have h2 : (fetchRemoteLink cfg (.success u) t0 c' k).cache = c1 :=
    congrArg ResolveOutcome.cache h
  rw [← h2]
  exact Cache.lookup_insert_self ..

/-- A successful resolution that performed the outbound call leaves exactly
the fresh entry `{url, expires = t0 + timeout}` under its key. -/
theorem lookup_after_success (cfg : AppConfig) (c c1 : Cache) (k u : String)
    (t0 : Nat)
    (h : get_dropbox_temporary_link cfg (.success u) t0 c k = ⟨some u, c1, 1⟩) :
    Cache.lookup c1 k = some ⟨u, t0 + cfg.dropboxLinkCacheTimeout⟩ := by
  unfold get_dropbox_temporary_link at h
  split at h
  · split at h
    · simp at h
    · exact lookup_of_fetch_success cfg _ c1 k u t0 h
  · exact lookup_of_fetch_success cfg _ c1 k u t0 h

/-- On a failed outbound outcome, `get_dropbox_temporary_link` either hits
a valid cached entry (zero calls) or performs the one failing call,
returns `None`, and leaves no entry under the key. -/
theorem gdtl_failure_cases (cfg : AppConfig) (now : Nat) (c : Cache) (k : String) :
    (get_dropbox_temporary_link cfg .failure now c k).calls = 0 ∨
    ((get_dropbox_temporary_link cfg .failure now c k).result = none ∧
     Cache.lookup (get_dropbox_temporary_link cfg .failure now c k).cache k = none ∧
     (get_dropbox_temporary_link cfg .failure now c k).calls = 1) := by
  unfold get_dropbox_temporary_link
  cases hl : Cache.lookup c k with
  | none =>
    right
    refine ⟨rfl, ?_, rfl⟩
    exact hl
  | some e =>
    cases hv : e.valid now with
    | true => left; simp [hv]
    | false =>
      right
      simp only [hv, Bool.false_eq_true, if_false]
      exact ⟨rfl, Cache.lookup_erase_self .., rfl⟩

/-- C1.  After a resolution for key `k` at time `t0` that succeeded via the
outbound call (hence cached `{u, t0 + T}`), a resolution at any `t1 < t0+T`
performs zero outbound calls and returns the same URL with the cache
untouched, while a resolution at `t1 >= t0+T` finds the cached entry
invalid (`valid` iff `now < expires`), evicts it, and performs exactly one
outbound call. -/
theorem cache_correctness (cfg : AppConfig) (c c1 : Cache) (k u : String)
    (t0 : Nat)
    (h : get_dropbox_temporary_link cfg (.success u) t0 c k = ⟨some u, c1, 1⟩) :
    (∀ (r1 : RemoteResult) (t1 : Nat), t1 < t0 + cfg.dropboxLinkCacheTimeout →
        get_dropbox_temporary_link cfg r1 t1 c1 k = ⟨some u, c1, 0⟩) ∧
    (∀ (r1 : RemoteResult) (t1 : Nat), t0 + cfg.dropboxLinkCacheTimeout ≤ t1 →
        Cache.lookup c1 k = some ⟨u, t0 + cfg.dropboxLinkCacheTimeout⟩ ∧
        CacheEntry.valid ⟨u, t0 + cfg.dropboxLinkCacheTimeout⟩ t1 = false ∧
        get_dropbox_temporary_link cfg r1 t1 c1 k
          = fetchRemoteLink cfg r1 t1 (Cache.erase c1 k) k ∧
        (get_dropbox_temporary_link cfg r1 t1 c1 k).calls = 1) := by
  have hl := lookup_after_success cfg c c1 k u t0 h
  constructor
  · intro r1 t1 ht1
    unfold get_dropbox_temporary_link
    rw [hl]
    simp [CacheEntry.valid, ht1]
  · intro r1 t1 ht1
    have hv : CacheEntry.valid ⟨u, t0 + cfg.dropboxLinkCacheTimeout⟩ t1 = false := by
      simp [CacheEntry.valid]
      omega
    refine ⟨hl, hv, ?_, ?_⟩
    · unfold get_dropbox_temporary_link
      rw [hl]
      simp [hv]
    · unfold get_dropbox_temporary_link
      rw [hl]
      simp [hv, fetchRemoteLink_calls]

def cfgW : AppConfig := ⟨true, "/orig", "/thumb", 10⟩

def cW : Cache := [("/k", ⟨"u", 10⟩)]

/-- Witness for C1 at a concrete configuration, key and times. -/
theorem cache_correctness_witness :
    get_dropbox_temporary_link cfgW (.success "u") 0 [] "/k" = ⟨some "u", cW, 1⟩ ∧
    get_dropbox_temporary_link cfgW .failure 5 cW "/k" = ⟨some "u", cW, 0⟩ ∧
    (get_dropbox_temporary_link cfgW .failure 10 cW "/k").calls = 1 :=
  ⟨by decide,
   (cache_correctness cfgW [] cW "/k" "u" 0 (by decide)).1 .failure 5 (by decide),
   ((cache_correctness cfgW [] cW "/k" "u" 0 (by decide)).2 .failure 10
      (by decide)).2.2.2⟩

/-- In remote mode with a nonempty path, `get_image_url` passes its cache
and outbound-call count through from `get_dropbox_temporary_link` on the
computed Dropbox path, whatever branch the returned value takes. -/
theorem get_image_url_dropbox (cfg : AppConfig) (remote : RemoteResult)
    (now : Nat) (c : Cache) (p : String) (hp : p ≠ "")
    (hd : cfg.useDropbox = true) :
    (get_image_url cfg remote now c (some p)).cache
      = (get_dropbox_temporary_link cfg remote now c (dropboxPathOf cfg p)).cache ∧
    (get_image_url cfg remote now c (some p)).calls
      = (get_dropbox_temporary_link cfg remote now c (dropboxPathOf cfg p)).calls := by
  simp only [get_image_url, hp, hd, Bool.not_true, Bool.false_eq_true, if_false,
    ite_false]
  cases (get_dropbox_temporary_link cfg remote now c (dropboxPathOf cfg p)).result with
  | none => exact ⟨rfl, rfl⟩
  | some u => by_cases hu : u = "" <;> simp [hu]

/-- C2.  If the outbound create-temporary-link call is performed and fails
(for any reason, all exceptions being caught alike), `get_image_url`
returns the local static URL for the separator-normalized path and the
cache holds no entry for the computed Dropbox path afterwards. -/
theorem fallback_on_failure (cfg : AppConfig) (now : Nat) (c : Cache) (p : String)
    (h : (get_image_url cfg .failure now c (some p)).calls = 1) :
    (get_image_url cfg .failure now c (some p)).result
        = some (staticUrl (normalizeSeparators p)) ∧
    Cache.lookup (get_image_url cfg .failure now c (some p)).cache
        (dropboxPathOf cfg p) = none := by
  by_cases hp : p = ""
  · rw [hp] at h
    simp [get_image_url] at h
  · cases hd : cfg.useDropbox with
    | false =>
      exfalso
      simp [get_image_url, hp, hd] at h
    | true =>
      obtain ⟨hcache, hcalls⟩ := get_image_url_dropbox cfg .failure now c p hp hd
      obtain hc | ⟨hres, hlook, -⟩ :=
        gdtl_failure_cases cfg now c (dropboxPathOf cfg p)
      · rw [hcalls, hc] at h
        exact absurd h (by decide)
      · refine ⟨?_, by rw [hcache]; exact hlook⟩
        simp [get_image_url, hp, hd, hres]

/-- Witness for C2 at a concrete configuration and path. -/
theorem fallback_on_failure_witness :
    (get_image_url cfgW .failure 0 [] (some "a\\b.jpg")).calls = 1 ∧
    ((get_image_url cfgW .failure 0 [] (some "a\\b.jpg")).result
        = some (staticUrl (normalizeSeparators "a\\b.jpg")) ∧
     Cache.lookup (get_image_url cfgW .failure 0 [] (some "a\\b.jpg")).cache
        (dropboxPathOf cfgW "a\\b.jpg") = none) :=
  ⟨by decide, fallback_on_failure cfgW 0 [] "a\\b.jpg" (by decide)⟩

/-! ## Header and stream lemmas for the proxy -/

theorem headerLookup_append (l1 l2 : List (String × String)) (key : String) :
    headerLookup (l1 ++ l2) key =
      match headerLookup l1 key with
      | some v => some v
      | none => headerLookup l2 key := by
  induction l1 with
  | nil => rfl
  | cons kv rest ih =>
    obtain ⟨k, v⟩ := kv
    by_cases hk : k = key <;> simp [headerLookup, hk, ih]

theorem headerLookup_optHeader_self (name : String) (v : Option String) :
    headerLookup (optHeader name v) name = v := by
  cases v <;> simp [optHeader, headerLookup]

theorem headerLookup_optHeader_ne (name key : String) (v : Option String)
    (h : name ≠ key) : headerLookup (optHeader name v) key = none := by
  cases v <;> simp [optHeader, headerLookup, h]

/-- Dropping the empty chunks (`if chunk:`) does not change the
concatenated byte stream. -/
theorem flatten_filter_nonempty (l : List (List Nat)) :
    (l.filter fun ch => !ch.isEmpty).flatten = l.flatten := by
  induction l with
  | nil => rfl
  | cons c cs ih =>
    by_cases hc : c.isEmpty
    · have hnil : c = [] := List.isEmpty_iff.mp hc
      simp [List.filter_cons, hc, hnil, ih]
    · simp [List.filter_cons, hc, ih]

/-- C3 counterexample: an unclassified failure inside `cog_proxy` is
answered with status 500, not the service-unavailable 503 the claim
asserts for every failure kind. -/
theorem proxy_unexpected_gives_500 :
    (cog_proxy (some "https://x") none fun _ => .otherError "boom").status = 500 ∧
    (cog_proxy (some "https://x") none fun _ => .otherError "boom").status ≠ 503 := by
  decide

/-- C3 (amended).  `cog_proxy` distinguishes the three outbound failure
kinds and converts each to a structured JSON error with a distinguishing
message, never letting the exception escape: an outbound timeout and an
outbound transport/connection failure each yield status 503, while any
other unexpected failure yields status 500. -/
theorem proxy_failure_taxonomy (u : String) (r : Option String) (e e' : String)
    (hu : u ≠ "") :
    cog_proxy (some u) r (fun _ => .timedOut)
      = ⟨503, none, [], .jsonErr "Request to Dropbox timed out" none⟩ ∧
    cog_proxy (some u) r (fun _ => .requestError e)
      = ⟨503, none, [], .jsonErr ("Failed to fetch from Dropbox: " ++ e) none⟩ ∧
    cog_proxy (some u) r (fun _ => .otherError e')
      = ⟨500, none, [], .jsonErr e' none⟩ := by
  refine ⟨?_, ?_, ?_⟩ <;> simp [cog_proxy, hu]

/-- Witness for the amended C3 at a concrete URL and messages. -/
theorem proxy_failure_taxonomy_witness :
    cog_proxy (some "https://x") none (fun _ => .timedOut)
      = ⟨503, none, [], .jsonErr "Request to Dropbox timed out" none⟩ ∧
    cog_proxy (some "https://x") none (fun _ => .requestError "conn reset")
      = ⟨503, none, [], .jsonErr ("Failed to fetch from Dropbox: " ++ "conn reset") none⟩ ∧
    cog_proxy (some "https://x") none (fun _ => .otherError "boom")
      = ⟨500, none, [], .jsonErr "boom" none⟩ :=
  proxy_failure_taxonomy "https://x" none "conn reset" "boom" (by decide)

/-- C4 counterexample: the pre-flight handler never sets
`Access-Control-Expose-Headers`, so it does not carry all four
cross-origin headers the claim lists. -/
theorem preflight_missing_expose_header :
    headerLookup cog_proxy_options.headers "Access-Control-Expose-Headers" = none := by
  decide

/-- C4 (amended).  The pre-flight OPTIONS handler always returns status
200 with an empty body and exactly the three cross-origin headers
`Access-Control-Allow-Origin: *`, `Access-Control-Allow-Methods: GET,
OPTIONS` and `Access-Control-Allow-Headers: Range`, independent of
upstream availability; it does not set `Access-Control-Expose-Headers`. -/
theorem preflight_cors :
    cog_proxy_options.status = 200 ∧
    cog_proxy_options.body = .empty ∧
    headerLookup cog_proxy_options.headers "Access-Control-Allow-Origin" = some "*" ∧
    headerLookup cog_proxy_options.headers "Access-Control-Allow-Methods"
      = some "GET, OPTIONS" ∧
    headerLookup cog_proxy_options.headers "Access-Control-Allow-Headers"
      = some "Range" ∧
    headerLookup cog_proxy_options.headers "Access-Control-Expose-Headers" = none := by
  decide

/-- C5.  For an upstream response with status >= 400, `cog_proxy` does not
stream the upstream body: it returns status 503 with a structured JSON
error naming the upstream status, whose details are at most 200 characters
and, when the upstream error body is nonempty, are a prefix of it. -/
theorem proxy_upstream_error (u : String) (r : Option String)
    (resp : UpstreamResponse) (hu : u ≠ "") (hs : 400 ≤ resp.status) :
    cog_proxy (some u) r (fun _ => .ok resp)
      = ⟨503, none, [],
         .jsonErr ("Dropbox returned " ++ toString resp.status)
           (some (errorExcerpt resp.text))⟩ ∧
    (errorExcerpt resp.text).data.length ≤ 200 ∧
    (resp.text ≠ "" → (errorExcerpt resp.text).data <+: resp.text.data) := by
  refine ⟨by simp [cog_proxy, hu, hs], ?_, ?_⟩
  · by_cases ht : resp.text = ""
    · simp [errorExcerpt, ht]
    · simp only [errorExcerpt, ht, if_false, truncate200]
      simp [List.length_take]
  · intro ht
    simp only [errorExcerpt, ht, if_false, truncate200]
    exact List.take_prefix 200 resp.text.data

def respErrW : UpstreamResponse := ⟨404, none, none, none, none, "Not Found", []⟩

/-- Witness for C5 at upstream status 404. -/
theorem proxy_upstream_error_witness :
    cog_proxy (some "https://x") none (fun _ => .ok respErrW)
      = ⟨503, none, [],
         .jsonErr ("Dropbox returned " ++ toString respErrW.status)
           (some (errorExcerpt respErrW.text))⟩ ∧
    (errorExcerpt respErrW.text).data.length ≤ 200 := by
  obtain ⟨h1, h2, -⟩ :=
    proxy_upstream_error "https://x" none respErrW (by decide) (by decide)
  exact ⟨h1, h2⟩

/-- C6.  For a successful upstream response (status < 400), `cog_proxy`
preserves the upstream status code, preserves the content type whenever
the upstream supplies one, streams a body whose concatenation is
byte-for-byte the upstream body, and copies through `Content-Range`,
`Content-Length` and `Accept-Ranges` exactly when the upstream supplies
them. -/
theorem proxy_pass_through (u : String) (r : Option String)
    (resp : UpstreamResponse) (hu : u ≠ "") (hs : resp.status < 400) :
    (cog_proxy (some u) r fun _ => .ok resp).status = resp.status ∧
    (∀ ct, resp.contentType = some ct →
        (cog_proxy (some u) r fun _ => .ok resp).contentType = some ct) ∧
    (∃ chunks, (cog_proxy (some u) r fun _ => .ok resp).body = .stream chunks ∧
        chunks.flatten = resp.chunks.flatten) ∧
    headerLookup (cog_proxy (some u) r fun _ => .ok resp).headers "Content-Range"
      = resp.contentRange ∧
    headerLookup (cog_proxy (some u) r fun _ => .ok resp).headers "Content-Length"
      = resp.contentLength ∧
    headerLookup (cog_proxy (some u) r fun _ => .ok resp).headers "Accept-Ranges"
      = resp.acceptRanges := by
  have hs' : ¬ 400 ≤ resp.status := by omega
  have heq : (cog_proxy (some u) r fun _ => .ok resp)
      = ⟨resp.status, some (resp.contentType.getD "image/tiff"),
         corsHeaders ++ optHeader "Content-Range" resp.contentRange
           ++ optHeader "Content-Length" resp.contentLength
           ++ optHeader "Accept-Ranges" resp.acceptRanges,
         .stream (resp.chunks.filter fun ch => !ch.isEmpty)⟩ := by
    simp [cog_proxy, hu, hs']
  rw [heq]
  refine ⟨rfl, ?_, ?_, ?_, ?_, ?_⟩
  · intro ct hct
    simp [hct]
  · exact ⟨_, rfl, flatten_filter_nonempty resp.chunks⟩
  · cases hcr : resp.contentRange <;>
      simp [headerLookup_append, headerLookup_optHeader_self,
        headerLookup_optHeader_ne, headerLookup, corsHeaders]
  · cases hcl : resp.contentLength <;>
      simp [headerLookup_append, headerLookup_optHeader_self,
        headerLookup_optHeader_ne, headerLookup, corsHeaders]
  · cases har : resp.acceptRanges <;>
      simp [headerLookup_append, headerLookup_optHeader_self,
        headerLookup_optHeader_ne, headerLookup, corsHeaders]

def respOkW : UpstreamResponse :=
  ⟨206, some "image/tiff", some "bytes 0-99/1000", some "100", some "bytes", "",
   [[1, 2], [], [3]]⟩

/-- Witness for C6 at a concrete 206 partial-content response. -/
theorem proxy_pass_through_witness :
    (cog_proxy (some "https://x") (some "bytes=0-99") fun _ => .ok respOkW).status
      = 206 ∧
    (cog_proxy (some "https://x") (some "bytes=0-99") fun _ => .ok respOkW).contentType
      = some "image/tiff" ∧
    headerLookup
        (cog_proxy (some "https://x") (some "bytes=0-99") fun _ => .ok respOkW).headers
        "Content-Range"
      = some "bytes 0-99/1000" ∧
    (∃ chunks,
      (cog_proxy (some "https://x") (some "bytes=0-99") fun _ => .ok respOkW).body
        = .stream chunks ∧ chunks.flatten = respOkW.chunks.flatten) := by
  obtain ⟨h1, h2, h3, h4, -, -⟩ :=
    proxy_pass_through "https://x" (some "bytes=0-99") respOkW (by decide) (by decide)
  exact ⟨h1, h2 "image/tiff" rfl, h4, h3⟩

/-! ## Spec-side remote-path mapping (refinement target for C7)

The spec words the mapping as: extract the basename, classify the path as
thumbnail-class or original-class by a case-insensitive substring match,
and prefix with the corresponding configured remote folder.  These
definitions follow that wording; the source-side computation is
`dropboxPathOf` above. -/

/-- The tagged classification of an asset reference. -/
inductive AssetClass where
  | original
  | thumbnail
  deriving Repr, DecidableEq

/-- Thumbnail-class iff the separator-normalized path contains the marker
`"thumbnails"` as a case-insensitive substring. -/
def classifySpec (p : String) : AssetClass :=
  if containsSub (lowerStr (normalizeSeparators p)) "thumbnails" then .thumbnail
  else .original

/-- The characters after the last separator (the basename). -/
def afterLastSep (sep : Char) : List Char → List Char
  | [] => []
  | c :: cs =>
    if sep ∈ cs then afterLastSep sep cs
    else if c = sep then cs else c :: cs

/-- Spec-side remote storage path: configured folder for the class, joined
with the basename of the separator-normalized path. -/
def remotePathSpec (cfg : AppConfig) (p : String) : String :=
  (match classifySpec p with
   | .thumbnail => cfg.dropboxThumbnailFolder
   | .original => cfg.dropboxOriginalFolder) ++ "/"
    ++ String.mk (afterLastSep '/' (normalizeSeparators p).data)

theorem splitChars_ne_nil (sep : Char) (l : List Char) : splitChars sep l ≠ [] := by
  cases l with
  | nil => simp [splitChars]
  | cons c cs =>
    simp only [splitChars]
    cases splitChars sep cs with
    | nil => simp
    | cons g gs => by_cases hc : c = sep <;> simp [hc]

/-- A list splits into a single fragment (itself) iff it has no separator;
with a separator it splits into at least two fragments. -/
theorem splitChars_shape (sep : Char) (l : List Char) :
    (sep ∉ l ∧ splitChars sep l = [l]) ∨
    (sep ∈ l ∧ 2 ≤ (splitChars sep l).length) := by
  induction l with
  | nil => left; exact ⟨by simp, rfl⟩
  | cons c cs ih =>
    obtain ⟨hf, hS⟩ | ⟨ht, hlen⟩ := ih
    · by_cases hc : c = sep
      · subst hc
        right
        refine ⟨by simp, ?_⟩
        simp [splitChars, hS]
      · left
        constructor
        · simp only [List.mem_cons]
          rintro (he | he)
          · exact hc he.symm
          · exact hf he
        · simp [splitChars, hS, hc]
    · right
      refine ⟨by simp [ht], ?_⟩
      cases hs : splitChars sep cs with
      | nil => exact absurd hs (splitChars_ne_nil sep cs)
      | cons g gs =>
        rw [hs] at hlen
        simp only [List.length_cons] at hlen
        by_cases hc : c = sep
        · simp [splitChars, hs, hc]
        · simp [splitChars, hs, hc]
          omega

theorem afterLastSep_no_sep (sep : Char) (l : List Char) (h : sep ∉ l) :
    afterLastSep sep l = l := by
  cases l with
  | nil => rfl
  | cons d ds =>
    have hd : ¬ d = sep := fun he => h (by simp [he])
    have hds : sep ∉ ds := fun he => h (List.mem_cons_of_mem d he)
    simp [afterLastSep, hds, hd]

/-- The last fragment of the separator-split of a list is exactly the part
after the last separator. -/
theorem lastPart_eq_afterLastSep (sep : Char) (l : List Char) :
    lastPart sep l = afterLastSep sep l := by
  induction l with
  | nil => rfl
  | cons c cs ih =>
    cases hs : splitChars sep cs with
    | nil => exact absurd hs (splitChars_ne_nil sep cs)
    | cons g gs =>
      by_cases hc : c = sep
      · have hL : lastPart sep (c :: cs) = lastPart sep cs := by
          unfold lastPart
          simp only [splitChars, hs]
          rw [if_pos hc]
          simp [List.getLastD_cons]
        by_cases hcs : sep ∈ cs
        · rw [hL, ih]
          simp [afterLastSep, hcs]
        · obtain ⟨-, hS⟩ | ⟨ht, -⟩ := splitChars_shape sep cs
          · rw [hL]
            unfold lastPart
            rw [hS]
            simp [afterLastSep, hcs, hc, List.getLastD]
          · exact absurd ht hcs
      · cases gs with
        | nil =>
          obtain ⟨hf, hS⟩ | ⟨-, hlen⟩ := splitChars_shape sep cs
          · have hg : g = cs := by
              rw [hs] at hS
              simpa using hS
            unfold lastPart
            simp only [splitChars, hs]
            rw [if_neg hc]
            simp [List.getLastD, afterLastSep, hf, hc, hg]
          · rw [hs] at hlen
            simp at hlen
        | cons g' gs' =>
          have hcontain : sep ∈ cs := by
            obtain ⟨-, hS⟩ | ⟨ht, -⟩ := splitChars_shape sep cs
            · rw [hs] at hS
              simp at hS
            · exact ht
          have hL : lastPart sep (c :: cs) = lastPart sep cs := by
            unfold lastPart
            simp only [splitChars, hs]
            rw [if_neg hc]
            simp [List.getLastD_cons]
          rw [hL, ih]
          simp [afterLastSep, hcontain]

/-- C7.  The mapping from a logical path to the remote storage path is a
pure function of the path and the fixed configuration (computing it twice
yields identical results); it refines the spec-side mapping built from a
tagged classifier and basename extraction; and the path is
thumbnail-class iff its separator-normalized form contains the thumbnail
marker as a case-insensitive substring. -/
theorem remote_path_pure (cfg : AppConfig) (p : String) :
    dropboxPathOf cfg p = dropboxPathOf cfg p ∧
    dropboxPathOf cfg p = remotePathSpec cfg p ∧
    (classifySpec p = .thumbnail ↔
      containsSub (lowerStr (normalizeSeparators p)) "thumbnails" = true) := by
  refine ⟨rfl, ?_, ?_⟩
  · by_cases hth : containsSub (lowerStr (normalizeSeparators p)) "thumbnails" <;>
      simp [dropboxPathOf, remotePathSpec, classifySpec, hth,
        lastPart_eq_afterLastSep]
  · by_cases hth : containsSub (lowerStr (normalizeSeparators p)) "thumbnails" <;>
      simp [classifySpec, hth]

/-- C8.  `get_image_url` is total: an absent or empty logical path yields
the empty "no asset" result with no error, no outbound call and no cache
interaction, and every other input yields some usable URL, whatever the
configuration, cache state and remote-call outcome. -/
theorem resolver_total (cfg : AppConfig) (remote : RemoteResult) (now : Nat)
    (c : Cache) :
    get_image_url cfg remote now c none = ⟨none, c, 0⟩ ∧
    get_image_url cfg remote now c (some "") = ⟨none, c, 0⟩ ∧
    ∀ (p : String), p ≠ "" →
      ∃ u, (get_image_url cfg remote now c (some p)).result = some u := by
  refine ⟨rfl, by simp [get_image_url], ?_⟩
  intro p hp
  cases hd : cfg.useDropbox with
  | false =>
    exact ⟨staticUrl (normalizeSeparators p), by simp [get_image_url, hp, hd]⟩
  | true =>
    cases hr : (get_dropbox_temporary_link cfg remote now c (dropboxPathOf cfg p)).result with
    | none =>
      exact ⟨staticUrl (normalizeSeparators p), by simp [get_image_url, hp, hd, hr]⟩
    | some u =>
      by_cases hu : u = ""
      · exact ⟨staticUrl (normalizeSeparators p),
          by simp [get_image_url, hp, hd, hr, hu]⟩
      · exact ⟨u, by simp [get_image_url, hp, hd, hr, hu]⟩

/-- Witness for C8 at a concrete configuration and inputs. -/
theorem resolver_total_witness :
    get_image_url cfgW .failure 0 [] none = ⟨none, [], 0⟩ ∧
    ∃ u, (get_image_url cfgW .failure 0 [] (some "a.jpg")).result = some u := by
  obtain ⟨h1, -, h3⟩ := resolver_total cfgW .failure 0 []
  exact ⟨h1, h3 "a.jpg" (by decide)⟩

/-- C9.  With remote mode disabled, `get_image_url` on `"a\\b.jpg"` returns
the local static URL for `"a/b.jpg"`, performs zero outbound calls and
leaves the cache untouched, for any other configuration state, cache and
remote-call outcome. -/
theorem disabled_mode (cfg : AppConfig) (remote : RemoteResult) (now : Nat)
    (c : Cache) (h : cfg.useDropbox = false) :
    get_image_url cfg remote now c (some "a\\b.jpg")
      = ⟨some (staticUrl "a/b.jpg"), c, 0⟩ := by
  have hn : normalizeSeparators "a\\b.jpg" = "a/b.jpg" := by decide
  simp [get_image_url, h, hn]

def cfgL : AppConfig := ⟨false, "/orig", "/thumb", 10⟩

/-- Witness for C9 at a concrete disabled configuration. -/
theorem disabled_mode_witness :
    cfgL.useDropbox = false ∧
    get_image_url cfgL .failure 0 [] (some "a\\b.jpg")
      = ⟨some (staticUrl "a/b.jpg"), [], 0⟩ :=
  ⟨rfl, disabled_mode cfgL .failure 0 [] rfl⟩

/-! ## C10: the companion COG-URL endpoint shares the resolver's cache -/

/-- A lookup that finds an unexpired entry is served from the cache with
zero outbound calls. -/
theorem gdtl_hit (cfg : AppConfig) (c : Cache) (k u : String) (exp t1 : Nat)
    (hl : Cache.lookup c k = some ⟨u, exp⟩) (ht1 : t1 < exp)
    (r1 : RemoteResult) :
    get_dropbox_temporary_link cfg r1 t1 c k = ⟨some u, c, 0⟩ := by
  unfold get_dropbox_temporary_link
  rw [hl]
  simp [CacheEntry.valid, ht1]

/-- C10.  With an explicit target URL configured, `get_cog_url` returns it
directly with no outbound call and no cache interaction.  With no target
configured and remote mode enabled, a fallback resolution that succeeded
through the outbound call caches the link under the fixed raster path in
the resolver's shared cache, and within the cache timeout both a second
`get_cog_url` call and a direct resolver call for that key return the same
URL with zero outbound calls. -/
theorem cog_url_shared_cache (cfg : AppConfig) (c c1 : Cache) (u v : String)
    (b : Bool) (rm : RemoteResult) (now t0 : Nat) (hv : v ≠ "")
    (h : get_cog_url none true cfg (.success u) t0 c = ⟨200, .jsonUrl u, c1, 1⟩) :
    get_cog_url (some v) b cfg rm now c = ⟨200, .jsonUrl v, c, 0⟩ ∧
    Cache.lookup c1 cogDropboxPath = some ⟨u, t0 + cfg.dropboxLinkCacheTimeout⟩ ∧
    ∀ (r1 : RemoteResult) (t1 : Nat), t1 < t0 + cfg.dropboxLinkCacheTimeout →
      get_cog_url none true cfg r1 t1 c1 = ⟨200, .jsonUrl u, c1, 0⟩ ∧
      get_dropbox_temporary_link cfg r1 t1 c1 cogDropboxPath = ⟨some u, c1, 0⟩ := by
  simp only [get_cog_url, if_true] at h
  cases hr : (get_dropbox_temporary_link cfg (.success u) t0 c cogDropboxPath).result with
  | none =>
    rw [hr] at h
    simp at h
  | some w =>
    rw [hr] at h
    by_cases hw : w = ""
    · simp [hw] at h
    · simp only [hw, if_false] at h
      obtain ⟨hwu, hcache, hcalls⟩ := by
        simpa [CogOutcome.mk.injEq] using h
      have ho : get_dropbox_temporary_link cfg (.success u) t0 c cogDropboxPath
          = ⟨some u, c1, 1⟩ := by
        have he : (⟨(get_dropbox_temporary_link cfg (.success u) t0 c cogDropboxPath).result,
            (get_dropbox_temporary_link cfg (.success u) t0 c cogDropboxPath).cache,
            (get_dropbox_temporary_link cfg (.success u) t0 c cogDropboxPath).calls⟩ :
            ResolveOutcome) = ⟨some u, c1, 1⟩ := by
          rw [hr, hwu, hcache, hcalls]
        exact he
      have hu : u ≠ "" := by
        rw [← hwu]
        exact hw
      have hl := lookup_after_success cfg c c1 cogDropboxPath u t0 ho
      refine ⟨by simp [get_cog_url, hv], hl, ?_⟩
      intro r1 t1 ht1
      have hg := gdtl_hit cfg c1 cogDropboxPath u
        (t0 + cfg.dropboxLinkCacheTimeout) t1 hl ht1 r1
      exact ⟨by simp [get_cog_url, hg, hu], hg⟩

def cWcog : Cache := [(cogDropboxPath, ⟨"u", 10⟩)]

/-- Witness for C10 at a concrete configuration, with the second lookup
five seconds after the first. -/
theorem cog_url_shared_cache_witness :
    get_cog_url (some "https://x") false cfgW .failure 0 []
      = ⟨200, .jsonUrl "https://x", [], 0⟩ ∧
    Cache.lookup cWcog cogDropboxPath = some ⟨"u", 10⟩ ∧
    get_cog_url none true cfgW .failure 5 cWcog = ⟨200, .jsonUrl "u", cWcog, 0⟩ := by
  obtain ⟨h1, h2, h3⟩ :=
    cog_url_shared_cache cfgW [] cWcog "u" "https://x" false .failure 0 0
      (by decide) (by decide)
  exact ⟨h1, h2, (h3 .failure 5 (by decide)).1⟩

example :
    normalizeSeparators "a\\b.jpg" = "a/b.jpg" := by decide

example :
    dropboxPathOf ⟨true, "/orig", "/thumb", 10⟩ "THUMBNAILS\\t.JPG" = "/thumb/t.JPG" := by
  decide

example :
    dropboxPathOf ⟨true, "/orig", "/thumb", 10⟩ "original_images\\x.JPG" = "/orig/x.JPG" := by
  decide

example :
    get_dropbox_temporary_link ⟨true, "/o", "/t", 10⟩ (.success "u") 0 [] "/k"
      = ⟨some "u", [("/k", ⟨"u", 10⟩)], 1⟩ := by decide

end SoqotraRockArt
